import Mathlib

/-
  Verification of the pando loom core (src/src/components/loom.ts) against its
  natural-language specification.

  The embedding models the JavaScript code shallowly:
  - CIDs are strings; the content-addressed object store is a finite list of
    (cid, node) pairs plus a blob table for raw file bytes.
  - Fetched IPLD nodes that the merge routines treat as mutable dictionaries
    are modelled by TreeObj; the deletion of the reserved keys "@type" and
    "path" is modelled by the two boolean fields.
  - Thrown JavaScript exceptions are modelled by JsErr; a JS runtime
    TypeError (for example, assigning a property of undefined) is
    JsErr.typeError with the V8-style message.
  - Unbounded while loops and recursion over store-linked trees take a fuel
    parameter; exhaustion is the distinguished JsErr.outOfFuel.
  - In-place mutation of the tree arguments is modelled by threading the
    objects through and returning their final states next to the result,
    since JS mutations persist past a throw.
-/

/-- Errors raised by the embedded code: `error` models a thrown
`new Error(msg)`, `typeError` models a JS runtime TypeError, and `outOfFuel`
is the embedding artifact for exhausted fuel. -/
inductive JsErr where
  | error (msg : String)
  | typeError (msg : String)
  | outOfFuel
deriving DecidableEq, Repr

/-- The JS value found in a snapshot node under the key `parents`:
absent (JS `undefined`), the literal string `"undefined"` (the sentinel the
source uses for empty branch heads), or an array of parent CIDs. -/
inductive JsParents where
  | undef
  | strUndefined
  | links (cids : List String)
deriving DecidableEq, Repr

/-- A deserialized IPLD node, per the on-wire schema of the spec (section 6):
snapshot nodes carry a link to their root tree and a parents value, tree
nodes map child names to link CIDs, file nodes carry a link to a blob.
The display-only fields (timestamp) are omitted. -/
inductive IpldNode where
  | snapshot (author message : String) (tree : String) (parents : JsParents)
  | tree (path : String) (entries : List (String × String))
  | file (path : String) (link : String)
deriving DecidableEq, Repr

/-- The content-addressed store behind `this.node`: CID-keyed nodes plus a
blob table for raw file bytes reached through file links. -/
structure Store where
  nodes : List (String × IpldNode)
  blobs : List (String × String)
deriving DecidableEq, Repr

/-- Modelled from the spec: `node.get(cid)` fetches and deserializes the
object stored under `cid`; a missing object surfaces as an error. -/
def nodeGet (store : Store) (cid : String) : Except JsErr IpldNode :=
  match store.nodes.find? (fun p => p.1 == cid) with
  | some p => Except.ok p.2
  | none => Except.error (JsErr.error ("merkledag: not found: " ++ cid))

/-- Modelled from the spec: `node.get(cid, "@type")` reads the type tag of
the object stored under `cid`. -/
def nodeGetType (store : Store) (cid : String) : Except JsErr String :=
  match nodeGet store cid with
  | Except.error e => Except.error e
  | Except.ok (IpldNode.snapshot _ _ _ _) => Except.ok "snapshot"
  | Except.ok (IpldNode.tree _ _) => Except.ok "tree"
  | Except.ok (IpldNode.file _ _) => Except.ok "file"

/-- Modelled from the spec: `node.get(cid, "path")` reads the path field of
a tree or file object; snapshot objects have no such field. -/
def nodeGetPath (store : Store) (cid : String) : Except JsErr String :=
  match nodeGet store cid with
  | Except.error e => Except.error e
  | Except.ok (IpldNode.tree p _) => Except.ok p
  | Except.ok (IpldNode.file p _) => Except.ok p
  | Except.ok (IpldNode.snapshot _ _ _ _) =>
      Except.error (JsErr.error ("no link named path under " ++ cid))

/-- A fetched IPLD node viewed as the mutable JS dictionary that
`mergeTrees` and `updateWorkingDirectory` operate on: `hasType` and
`hasPath` record whether the reserved keys `"@type"` and `"path"` are still
present, and `entries` are the remaining keys with their link CIDs. -/
structure TreeObj where
  hasType : Bool
  hasPath : Bool
  entries : List (String × String)
deriving DecidableEq, Repr

/-- Dictionary lookup `t[name]`, returning the link CID if present
(link objects are always truthy in JS, so presence is what the source
conditions test). -/
def TreeObj.lookup (t : TreeObj) (name : String) : Option String :=
  (t.entries.find? (fun p => p.1 == name)).map (fun p => p.2)

/-- The JS statement `delete t[name]`. -/
def TreeObj.erase (t : TreeObj) (name : String) : TreeObj :=
  { t with entries := t.entries.filter (fun p => !(p.1 == name)) }

/-- The two statements `delete t["@type"]; delete t["path"]` that open
`mergeTrees` and `updateWorkingDirectory`. -/
def TreeObj.stripMeta (t : TreeObj) : TreeObj :=
  { t with hasType := false, hasPath := false }

/-- The dictionary view of a freshly fetched node, as the recursive calls of
`mergeTrees` and `updateWorkingDirectory` receive it. Only link-valued
fields are represented; the merge paths only ever reach this with tree
nodes. -/
def toTreeObj : IpldNode → TreeObj
  | IpldNode.tree _ entries => ⟨true, true, entries⟩
  | IpldNode.file _ link => ⟨true, true, [("link", link)]⟩
  | IpldNode.snapshot _ _ tree _ => ⟨true, true, [("tree", tree)]⟩

/-- Modelled from the spec: `node.get(cid, "tree")` resolves the `tree`
field of a snapshot through its link, returning the root tree node. -/
def nodeGetTree (store : Store) (cid : String) : Except JsErr TreeObj :=
  match nodeGet store cid with
  | Except.error e => Except.error e
  | Except.ok (IpldNode.snapshot _ _ treeCid _) =>
    match nodeGet store treeCid with
    | Except.error e => Except.error e
    | Except.ok n => Except.ok (toTreeObj n)
  | Except.ok _ => Except.error (JsErr.error ("no link named tree under " ++ cid))

/-- Modelled from the spec: `node.download(cid, {cacheOnly: true})`
materializes the raw bytes of the file object stored under `cid`. -/
def downloadCacheOnly (store : Store) (cid : String) : Except JsErr String :=
  match nodeGet store cid with
  | Except.error e => Except.error e
  | Except.ok (IpldNode.file _ link) =>
    match store.blobs.find? (fun p => p.1 == link) with
    | some p => Except.ok p.2
    | none => Except.error (JsErr.error ("merkledag: not found: " ++ link))
  | Except.ok _ => Except.error (JsErr.error ("cannot download " ++ cid))

/-- Result of the external textual three-way merge (npm three-way-merge):
a conflict flag and the joined output. -/
structure TextMergeResult where
  conflict : Bool
  joined : String
deriving DecidableEq, Repr

/-- Modelled from the spec: the external textual merge adapter
`merge3(left, base, right)` (spec section 6). Its result is discarded by
the source apart from being logged, so only the shape matters. -/
def threeWayMerge (left base right : String) : TextMergeResult :=
  if left = right then ⟨false, left⟩
  else if left = base then ⟨false, right⟩
  else if right = base then ⟨false, left⟩
  else ⟨true, "<<<<<<<\n" ++ left ++ "=======\n" ++ right ++ ">>>>>>>"⟩

/-- JS stringification of a boolean, as console.log renders it. -/
def jsBool (b : Bool) : String := if b then "true" else "false"

/-- JS stringification of an array of strings (joined with commas), as it
appears when the source concatenates an array into an error message. -/
def jsJoin (l : List String) : String := String.intercalate "," l

/-- JS stringification of a possibly-undefined string. -/
def jsOpt : Option String → String
  | some s => s
  | none => "undefined"

/-- The declared (but never initialized) result tuple of `mergeTrees`:
`[mergeFlag, mergeReport, mergeTree]`. No execution path of the source ever
builds it, because the final assignments write into the undefined
`mergeResult`; it appears here so the callers dead success branch can be
written as in the source. -/
structure MergeTuple where
  mergeFlag : Option String
  mergeReport : Option String
  mergeTree : Option TreeObj
deriving DecidableEq, Repr

/-- The mutable objects threaded through a `mergeTrees` call: the three
tree dictionaries passed in (mutated in place by the source) and the
console log. -/
structure MTState where
  origin : TreeObj
  dest : TreeObj
  lca : TreeObj
  log : List String
deriving DecidableEq, Repr

/-- One iteration of the `for (entry in _destinationTree)` loop of
`Loom.mergeTrees` (src lines 347-395). The accumulator carries the pending
exception (JS exceptions abort the loop; a raised error freezes the fold)
and the mutable state. `rec` is the recursive call for the tree case.
Notes kept from the source:
- the branch for an entry absent from the origin tree executes
  `mergeTree[entry] = ...` with `mergeTree` undefined, a TypeError; the
  `delete _originTree[entry]` after it is unreachable;
- the type-mismatch branch likewise assigns into the undefined `mergeTree`;
- the file branch downloads the three blobs, runs the external text merge
  and only logs its result (lines 372-375);
- the tree branch fetches the three children and recurses, discarding the
  recursive result (line 386) but propagating exceptions and log writes. -/
def mergeTreesStep (store : Store)
    (rec : TreeObj → TreeObj → TreeObj → List String → Except JsErr MergeTuple × MTState)
    (acc : Option JsErr × MTState) (e : String × String) : Option JsErr × MTState :=
  match acc with
  | (some err, st) => (some err, st)
  | (none, st) =>
    match st.origin.lookup e.1 with
    | none =>
      (some (JsErr.typeError ("Cannot set properties of undefined (setting " ++ e.1 ++ ")")), st)
    | some originCid =>
      if e.2 ≠ originCid then
        match nodeGetType store originCid with
        | Except.error er => (some er, st)
        | Except.ok originEntryType =>
          match nodeGetType store e.2 with
          | Except.error er => (some er, st)
          | Except.ok destinationEntryType =>
            if originEntryType ≠ destinationEntryType then
              (some (JsErr.typeError ("Cannot set properties of undefined (setting " ++ e.1 ++ ")")), st)
            else if originEntryType == "file" then
              match st.lca.lookup e.1 with
              | none =>
                (some (JsErr.error ("We cant perform a three way merge for " ++ e.1 ++
                  ". There is no common ancestor in the branch node. Please choose wich file you want to keep manually")), st)
              | some lcaCid =>
                match downloadCacheOnly store originCid with
                | Except.error er => (some er, st)
                | Except.ok left =>
                  match downloadCacheOnly store lcaCid with
                  | Except.error er => (some er, st)
                  | Except.ok base =>
                    match downloadCacheOnly store e.2 with
                    | Except.error er => (some er, st)
                    | Except.ok right =>
                      let merged := threeWayMerge left base right
                      (none, { st with log := st.log ++ [jsBool merged.conflict, merged.joined] })
            else if originEntryType == "tree" then
              match nodeGet store originCid with
              | Except.error er => (some er, st)
              | Except.ok originEntry =>
                match nodeGet store e.2 with
                | Except.error er => (some er, st)
                | Except.ok destinationEntry =>
                  match st.lca.lookup e.1 with
                  | none =>
                    (some (JsErr.typeError "Cannot read properties of undefined (reading /)"), st)
                  | some lcaCid =>
                    match nodeGet store lcaCid with
                    | Except.error er => (some er, st)
                    | Except.ok lcaEntry =>
                      match rec (toTreeObj originEntry) (toTreeObj destinationEntry)
                          (toTreeObj lcaEntry) st.log with
                      | (Except.error er, sub) => (some er, { st with log := sub.log })
                      | (Except.ok _, sub) => (none, { st with log := sub.log })
            else
              (none, st)
      else
        (none, st)

/-- Embedding of `Loom.mergeTrees` (src lines 334-404). It deletes the meta
keys of its three arguments, loops over the destination entries, and then
executes `mergeResult[0] = mergeFlag` with `mergeResult` undefined: a
TypeError. Every execution path therefore ends in a thrown exception; the
pair returned carries the exception together with the final states of the
mutated argument objects and the console log. -/
def mergeTrees (store : Store) : Nat → TreeObj → TreeObj → TreeObj → List String →
    Except JsErr MergeTuple × MTState
  | 0, o, d, l, log => (Except.error JsErr.outOfFuel, ⟨o, d, l, log⟩)
  | fuel+1, o, d, l, log =>
    match d.stripMeta.entries.foldl
        (mergeTreesStep store (fun o2 d2 l2 log2 => mergeTrees store fuel o2 d2 l2 log2))
        (none, ⟨o.stripMeta, d.stripMeta, l.stripMeta, log⟩) with
    | (some er, st) => (Except.error er, st)
    | (none, st) =>
      (Except.error (JsErr.typeError "Cannot set properties of undefined (setting 0)"), st)

/-- A working-directory side effect performed by the embedded code:
a download materializing content under the workspace, or a file removal. -/
inductive WdAction where
  | download (cid : String)
  | rm (path : String)
deriving DecidableEq, Repr

/-- One iteration of the first loop of `Loom.updateWorkingDirectory`
(src lines 414-441): reconcile one destination entry against the base tree,
then `delete _baseTree[entry]` (also executed, as a no-op delete, in the
branch where the entry is absent from the base). -/
def updateWDStep (store : Store)
    (rec : TreeObj → TreeObj → List WdAction → Except JsErr Unit × TreeObj × TreeObj × List WdAction)
    (acc : Option JsErr × TreeObj × List WdAction) (e : String × String) :
    Option JsErr × TreeObj × List WdAction :=
  match acc with
  | (some er, b, tr) => (some er, b, tr)
  | (none, b, tr) =>
    match b.lookup e.1 with
    | none =>
      match nodeGet store e.2 with
      | Except.error er => (some er, b, tr)
      | Except.ok _ => (none, b.erase e.1, tr ++ [WdAction.download e.2])
    | some baseCid =>
      if baseCid ≠ e.2 then
        match nodeGetType store baseCid with
        | Except.error er => (some er, b, tr)
        | Except.ok baseEntryType =>
          match nodeGetType store e.2 with
          | Except.error er => (some er, b, tr)
          | Except.ok newEntryType =>
            if baseEntryType ≠ newEntryType then
              match nodeGet store e.2 with
              | Except.error er => (some er, b, tr)
              | Except.ok _ => (none, b.erase e.1, tr ++ [WdAction.download e.2])
            else if baseEntryType == "file" then
              match nodeGet store e.2 with
              | Except.error er => (some er, b, tr)
              | Except.ok _ => (none, b.erase e.1, tr ++ [WdAction.download e.2])
            else if baseEntryType == "tree" then
              match nodeGet store baseCid with
              | Except.error er => (some er, b, tr)
              | Except.ok baseEntry =>
                match nodeGet store e.2 with
                | Except.error er => (some er, b, tr)
                | Except.ok newEntry =>
                  match rec (toTreeObj baseEntry) (toTreeObj newEntry) tr with
                  | (Except.error er, _, _, tr2) => (some er, b, tr2)
                  | (Except.ok _, _, _, tr2) => (none, b.erase e.1, tr2)
            else
              (none, b.erase e.1, tr)
      else
        (none, b.erase e.1, tr)

/-- One iteration of the second loop of `Loom.updateWorkingDirectory`
(src lines 443-447): look up the path of a remaining base entry and remove
it from the working directory. -/
def rmStep (store : Store) (acc : Option JsErr × List WdAction) (e : String × String) :
    Option JsErr × List WdAction :=
  match acc with
  | (some er, tr) => (some er, tr)
  | (none, tr) =>
    match nodeGetPath store e.2 with
    | Except.error er => (some er, tr)
    | Except.ok p => (none, tr ++ [WdAction.rm p])

/-- Embedding of `Loom.updateWorkingDirectory` (src lines 406-448): strip
the meta keys of both trees, reconcile every destination entry (deleting
processed entries from the base tree), then remove the remaining base
entries from the working directory. Returns the outcome, the final states
of the two tree objects, and the accumulated working-directory actions. -/
def updateWorkingDirectory (store : Store) : Nat → TreeObj → TreeObj → List WdAction →
    Except JsErr Unit × TreeObj × TreeObj × List WdAction
  | 0, b, n, tr => (Except.error JsErr.outOfFuel, b, n, tr)
  | fuel+1, b, n, tr =>
    match n.stripMeta.entries.foldl
        (updateWDStep store (fun b2 n2 t2 => updateWorkingDirectory store fuel b2 n2 t2))
        (none, b.stripMeta, tr) with
    | (some er, b1, tr1) => (Except.error er, b1, n.stripMeta, tr1)
    | (none, b1, tr1) =>
      match b1.entries.foldl (rmStep store) (none, tr1) with
      | (some er, tr2) => (Except.error er, b1, n.stripMeta, tr2)
      | (none, tr2) => (Except.ok (), b1, n.stripMeta, tr2)

/-- The `parents` value of a fetched node as the ancestor walk reads it:
the field is absent (JS undefined) on anything that is not a snapshot. -/
def parentsField : IpldNode → JsParents
  | IpldNode.snapshot _ _ _ p => p
  | _ => JsParents.undef

/-- Embedding of `Loom.buildSnapshotCIDS` (src lines 312-325): follow
`parents[0]` while the parents field differs from the string sentinel
`"undefined"`, accumulating the visited CIDs, and finally push the
sentinel itself. A node whose parents field is absent passes the guard
(undefined is not the string) and indexing it raises a TypeError; an empty
parents array pushes undefined and then fails fetching it. -/
def buildSnapshotCIDS (store : Store) : Nat → IpldNode → List String → Except JsErr (List String)
  | 0, _, _ => Except.error JsErr.outOfFuel
  | fuel+1, snap, snapshotCIDs =>
    match parentsField snap with
    | JsParents.strUndefined => Except.ok (snapshotCIDs ++ ["undefined"])
    | JsParents.undef =>
      Except.error (JsErr.typeError "Cannot read properties of undefined (reading 0)")
    | JsParents.links [] =>
      Except.error (JsErr.error "invalid cid: undefined")
    | JsParents.links (c :: _) =>
      match nodeGet store c with
      | Except.error er => Except.error er
      | Except.ok next => buildSnapshotCIDS store fuel next (snapshotCIDs ++ [c])

/-- The observable loom state the merge and checkout paths touch: the object
store, the branch registry (name to head CID, with the string sentinel
`"undefined"` for an empty head), the current branch name, the derived index
sets as of the last `index.update()` (the Index component lives outside the
core source and is taken abstractly through its derived sets, per spec
section 4.4), the trace of working-directory side effects, and the console
log. -/
structure LoomState where
  store : Store
  branches : List (String × String)
  currentBranchName : String
  indexModified : List String
  indexUnsnapshot : List String
  wdTrace : List WdAction
  consoleLog : List String
deriving DecidableEq, Repr

/-- Modelled from the spec: `Branch.exists` checks the branch registry for
the name (the Branch component lives outside the core source). -/
def branchExists (branches : List (String × String)) (name : String) : Bool :=
  branches.any (fun p => p.1 == name)

/-- Modelled from the spec: `Branch.head` reads the head CID recorded for
the branch; the source stores the string `"undefined"` for an empty head. -/
def branchHead (branches : List (String × String)) (name : String) : String :=
  match branches.find? (fun p => p.1 == name) with
  | some p => p.2
  | none => "undefined"

/-- Embedding of the lowest-common-ancestor computation inlined in
`Loom.merge` (src lines 165-191): fetch both head snapshots, build the two
first-parent CID lists with `buildSnapshotCIDS`, and return the first entry
of the origin list that occurs in the destination list (or none when the
loop never assigns `lcaCID`). -/
def mergeLcaCid (store : Store) (fuel : Nat) (originHead destinationHead : String) :
    Except JsErr (Option String) :=
  match nodeGet store originHead with
  | Except.error e => Except.error e
  | Except.ok originSnapshot =>
    match buildSnapshotCIDS store fuel originSnapshot [] with
    | Except.error e => Except.error e
    | Except.ok originSnapshotCIDs =>
      match nodeGet store destinationHead with
      | Except.error e => Except.error e
      | Except.ok destinationSnapshot =>
        match buildSnapshotCIDS store fuel destinationSnapshot [] with
        | Except.error e => Except.error e
        | Except.ok destinationSnapshotCIDs =>
          Except.ok (originSnapshotCIDs.find? (fun entry => destinationSnapshotCIDs.contains entry))

/-- Embedding of the parents construction in `Loom.snapshot` (src line 103):
`this.head !== "undefined" ? [await this.fromIPLD(await this.node.get(this.head))] : undefined`.
The deserialization `fromIPLD` is abstracted to the fetched node itself (its
reflection metadata lives outside the core source); the length of the built
array does not depend on it. -/
def snapshotParents (store : Store) (head : String) : Except JsErr (Option (List IpldNode)) :=
  if head ≠ "undefined" then
    match nodeGet store head with
    | Except.error e => Except.error e
    | Except.ok n => Except.ok (some [n])
  else
    Except.ok none

/-- Modelled from the spec together with src lines 94-111 (`Loom.snapshot`):
refuse when the unsnapshot set is empty, otherwise record a new snapshot
whose parents are at most the current head (line 103 attaches a single
parent) and move the current branch head to it. The tree built from the
staged index entries is abstracted (Index internals live outside the core
source); in this development the operation is only reached from the merge
success branch, where the index was just reinitialized and the unsnapshot
set is empty, so it always takes the error branch there. -/
def loomSnapshot (s : LoomState) (message : String) : Except JsErr Unit × LoomState :=
  if s.indexUnsnapshot = [] then
    (Except.error (JsErr.error "Nothing to snapshot"), s)
  else
    let head := branchHead s.branches s.currentBranchName
    let parents : JsParents :=
      if head ≠ "undefined" then JsParents.links [head] else JsParents.undef
    let cid := "cid-snapshot-" ++ message
    let snap := IpldNode.snapshot "author" message ("cid-tree-" ++ message) parents
    (Except.ok (), { s with
      store := { s.store with nodes := s.store.nodes ++ [(cid, snap)] },
      branches := s.branches.map (fun p =>
        if p.1 == s.currentBranchName then (p.1, cid) else p) })

/-- Embedding of `Loom.checkout` (src lines 113-147). `index.update()` is
modelled as refreshing the derived sets already held in the state. The
preflight checks (branch existence, unsnapshot, modified) run before any
side effect; on the clean path the working directory is reconciled, the
index reinitialized from the new tree (making the derived sets empty, per
spec section 4.4), and the current branch name is switched. -/
def loomCheckout (s : LoomState) (fuel : Nat) (branchName : String) :
    Except JsErr Unit × LoomState :=
  if branchExists s.branches branchName = false then
    (Except.error (JsErr.error ("Branch " ++ branchName ++ " does not exist")), s)
  else if s.indexUnsnapshot ≠ [] then
    (Except.error (JsErr.error ("You have unsnapshot modifications: " ++ jsJoin s.indexUnsnapshot)), s)
  else if s.indexModified ≠ [] then
    (Except.error (JsErr.error ("You have unstaged and unsnaphot modifications: " ++ jsJoin s.indexModified)), s)
  else
    let newHead := branchHead s.branches branchName
    let baseHead := branchHead s.branches s.currentBranchName
    if newHead ≠ "undefined" then
      match nodeGetTree s.store newHead with
      | Except.error e => (Except.error e, s)
      | Except.ok newTree =>
        match (if baseHead ≠ "undefined" then nodeGetTree s.store baseHead
               else Except.ok (⟨true, true, []⟩ : TreeObj)) with
        | Except.error e => (Except.error e, s)
        | Except.ok baseTree =>
          match updateWorkingDirectory s.store fuel baseTree newTree s.wdTrace with
          | (Except.error e, _, _, tr) => (Except.error e, { s with wdTrace := tr })
          | (Except.ok _, _, _, tr) =>
            (Except.ok (), { s with
                wdTrace := tr
                indexModified := []
                indexUnsnapshot := []
                currentBranchName := branchName })
    else
      (Except.ok (), { s with
          indexModified := []
          indexUnsnapshot := []
          currentBranchName := branchName })

/-- Embedding of `Loom.merge` (src lines 149-223). After the preflight
checks it computes the LCA from the two first-parent CID lists, fetches the
three trees, and calls `mergeTrees`; since `mergeTrees` always throws, the
conflict analysis and the success branch below it (which would update the
working directory, reinitialize the index, snapshot, and then set the
current branch name to the destination, lines 204-220) are written
faithfully but are unreachable. -/
def loomMerge (s : LoomState) (fuel : Nat) (destinationBranchName : String) :
    Except JsErr Unit × LoomState :=
  if branchExists s.branches destinationBranchName = false then
    (Except.error (JsErr.error ("Branch " ++ destinationBranchName ++ " does not exist")), s)
  else if s.indexUnsnapshot ≠ [] then
    (Except.error (JsErr.error ("You have unsnapshot modifications: " ++ jsJoin s.indexUnsnapshot)), s)
  else if s.indexModified ≠ [] then
    (Except.error (JsErr.error ("You have unstaged and unsnaphot modifications: " ++ jsJoin s.indexModified)), s)
  else
    let destinationHead := branchHead s.branches destinationBranchName
    let originHead := branchHead s.branches s.currentBranchName
    match mergeLcaCid s.store fuel originHead destinationHead with
    | Except.error e => (Except.error e, s)
    | Except.ok lcaCID =>
      match nodeGetTree s.store originHead with
      | Except.error e => (Except.error e, s)
      | Except.ok originTree =>
        match nodeGetTree s.store destinationHead with
        | Except.error e => (Except.error e, s)
        | Except.ok destinationTree =>
          match (match lcaCID with
                 | none => Except.error (JsErr.typeError "Cannot read properties of undefined")
                 | some c => nodeGetTree s.store c) with
          | Except.error e => (Except.error e, s)
          | Except.ok lcaTree =>
            match mergeTrees s.store fuel originTree destinationTree lcaTree s.consoleLog with
            | (Except.error e, mt) => (Except.error e, { s with consoleLog := mt.log })
            | (Except.ok mergeResult, mt) =>
              if mergeResult.mergeFlag = some "conflict" then
                (Except.error (JsErr.error
                  ("Some of the destination branch files are conflicting with the current one : \n"
                    ++ jsOpt mergeResult.mergeReport)),
                 { s with consoleLog := mt.log })
              else
                let s1 := { s with consoleLog := mt.log ++ ["Merge successful"] }
                match mergeResult.mergeTree with
                | none =>
                  (Except.error (JsErr.typeError "Cannot read properties of undefined"), s1)
                | some mergedTree =>
                  match updateWorkingDirectory s1.store fuel mt.origin mergedTree s1.wdTrace with
                  | (Except.error e, _, _, tr) => (Except.error e, { s1 with wdTrace := tr })
                  | (Except.ok _, _, _, tr) =>
                    let s2 := { s1 with wdTrace := tr, indexModified := [], indexUnsnapshot := [] }
                    match loomSnapshot s2
                        ("Merged " ++ s2.currentBranchName ++ "  into " ++ destinationBranchName) with
                    | (Except.error e, s3) => (Except.error e, s3)
                    | (Except.ok _, s3) =>
                      (Except.ok (), { s3 with currentBranchName := destinationBranchName })

/-- The parent CIDs of a stored node, for the specification-side ancestor
relation: the links recorded in a snapshot, nothing otherwise. -/
def specParents : IpldNode → List String
  | IpldNode.snapshot _ _ _ (JsParents.links ps) => ps
  | _ => []

/-- Specification-side DAG order (spec sections 4.6 and 8): `anc` is `x`
itself or is reachable from `x` by following parent links (all parents, not
just the first). Fueled; every use instantiates the fuel above the DAG
depth. -/
def specAncestorOrSelf (store : Store) : Nat → String → String → Bool
  | 0, _, _ => false
  | fuel+1, anc, x =>
    anc == x ||
      (match nodeGet store x with
       | Except.ok n => (specParents n).any (fun p => specAncestorOrSelf store fuel anc p)
       | Except.error _ => false)

/-- Specification-side strict ancestry: `anc` is reachable from `x` by at
least one parent step. -/
def specStrictAncestor (store : Store) (fuel : Nat) (anc x : String) : Bool :=
  match nodeGet store x with
  | Except.ok n => (specParents n).any (fun p => specAncestorOrSelf store fuel anc p)
  | Except.error _ => false

/-- An empty object store, for merge calls that never fetch. -/
def storeEmpty : Store := ⟨[], []⟩

/-- Origin tree holding one entry that the destination and base lack:
an origin-only addition. -/
def treeOnlyO : TreeObj := ⟨true, true, [("only.txt", "cid-only")]⟩

/-- A fetched tree dictionary with no child entries. -/
def treeEmpty : TreeObj := ⟨true, true, []⟩

/-- Store for the type-conflict scenario (spec scenario S5): under `p` the
origin holds a file and the destination holds a directory containing `q`. -/
def store5 : Store :=
  ⟨[("cid-p-file", IpldNode.file "p" "blob-p"),
    ("cid-p-tree", IpldNode.tree "p" [("q", "cid-q")])], []⟩

/-- Origin tree of the type-conflict scenario: `p` is a file. -/
def o5 : TreeObj := ⟨true, true, [("p", "cid-p-file")]⟩

/-- Destination tree of the type-conflict scenario: `p` is a tree. -/
def d5 : TreeObj := ⟨true, true, [("p", "cid-p-tree")]⟩

/-- Store with a linear snapshot chain sa -> sb -> sr whose initial snapshot
sr has an absent parents field, exactly what `Loom.snapshot` (src line 103)
records for the first snapshot of a branch. -/
def store9 : Store :=
  ⟨[("sr", IpldNode.snapshot "a" "m0" "t0" JsParents.undef),
    ("sb", IpldNode.snapshot "a" "m1" "t1" (JsParents.links ["sr"])),
    ("sa", IpldNode.snapshot "a" "m2" "t2" (JsParents.links ["sb"]))], []⟩

/-- The head snapshot node of the store9 chain, as `merge` fetches it. -/
def snap9 : IpldNode := IpldNode.snapshot "a" "m2" "t2" (JsParents.links ["sb"])

/-- Snapshot DAG with a two-parent merge snapshot: root sr; sx and sy are
children of sr; sm is a merge snapshot with parents [sx, sy]; sb is a child
of sy. The root carries the string sentinel so the first-parent walks of
`buildSnapshotCIDS` terminate. -/
def store8 : Store :=
  ⟨[("sr", IpldNode.snapshot "a" "r" "tr0" JsParents.strUndefined),
    ("sx", IpldNode.snapshot "a" "x" "tx" (JsParents.links ["sr"])),
    ("sy", IpldNode.snapshot "a" "y" "ty" (JsParents.links ["sr"])),
    ("sm", IpldNode.snapshot "a" "m" "tm" (JsParents.links ["sx", "sy"])),
    ("sb", IpldNode.snapshot "a" "b" "tb" (JsParents.links ["sy"]))], []⟩

/-- Store for the fast-forward scenario (spec scenario S2): master head s1
is an ancestor of branch-b head s3, which adds file `b` on top of s1. -/
def store6 : Store :=
  ⟨[("s0", IpldNode.snapshot "a" "m0" "t0" JsParents.strUndefined),
    ("t0", IpldNode.tree "." []),
    ("s1", IpldNode.snapshot "a" "m1" "t1" (JsParents.links ["s0"])),
    ("t1", IpldNode.tree "." [("a", "f1")]),
    ("f1", IpldNode.file "a" "blob-a"),
    ("s3", IpldNode.snapshot "a" "m3" "t3" (JsParents.links ["s1"])),
    ("t3", IpldNode.tree "." [("a", "f1"), ("b", "f2")]),
    ("f2", IpldNode.file "b" "blob-b")],
   [("blob-a", "x"), ("blob-b", "y")]⟩

/-- Fast-forward scenario state: clean index, current branch master at s1,
branch b at s3. -/
def state6 : LoomState := ⟨store6, [("master", "s1"), ("b", "s3")], "master", [], [], [], []⟩

/-- Store for the clean divergent merge scenario (spec scenario S3): from
common ancestor s1 (holding a.txt), master adds m.txt (head s4) and branch
b adds o.txt (head s5). -/
def store3 : Store :=
  ⟨[("s1", IpldNode.snapshot "a" "m1" "t1" JsParents.strUndefined),
    ("t1", IpldNode.tree "." [("a.txt", "fa")]),
    ("fa", IpldNode.file "a.txt" "ba"),
    ("s4", IpldNode.snapshot "a" "m4" "t4" (JsParents.links ["s1"])),
    ("t4", IpldNode.tree "." [("a.txt", "fa"), ("m.txt", "fm")]),
    ("fm", IpldNode.file "m.txt" "bm"),
    ("s5", IpldNode.snapshot "a" "m5" "t5" (JsParents.links ["s1"])),
    ("t5", IpldNode.tree "." [("a.txt", "fa"), ("o.txt", "fo")]),
    ("fo", IpldNode.file "o.txt" "bo")],
   [("ba", "A"), ("bm", "M"), ("bo", "O")]⟩

/-- Clean divergent merge state: clean index, master at s4, b at s5. -/
def state3 : LoomState := ⟨store3, [("master", "s4"), ("b", "s5")], "master", [], [], [], []⟩

/-- Store for the text-conflict scenario (spec scenario S4): a.txt is
changed differently on master (head s7) and on b (head s8) from the common
base s1. -/
def store4 : Store :=
  ⟨[("s1", IpldNode.snapshot "a" "m1" "t1" JsParents.strUndefined),
    ("t1", IpldNode.tree "." [("a.txt", "f0")]),
    ("f0", IpldNode.file "a.txt" "b0"),
    ("s7", IpldNode.snapshot "a" "m7" "t7" (JsParents.links ["s1"])),
    ("t7", IpldNode.tree "." [("a.txt", "fM")]),
    ("fM", IpldNode.file "a.txt" "bM"),
    ("s8", IpldNode.snapshot "a" "m8" "t8" (JsParents.links ["s1"])),
    ("t8", IpldNode.tree "." [("a.txt", "fB")]),
    ("fB", IpldNode.file "a.txt" "bB")],
   [("b0", "line1\nline2\n"), ("bM", "line1\nMASTER\n"), ("bB", "line1\nBRANCH\n")]⟩

/-- Text-conflict merge state: clean index, master at s7, b at s8. -/
def state4 : LoomState := ⟨store4, [("master", "s7"), ("b", "s8")], "master", [], [], [], []⟩

/-- A state whose index has a modified entry, used to invoke checkout with
a branch name that does not exist. -/
def dirtyState : LoomState := ⟨⟨[], []⟩, [("master", "undefined")], "master", ["m.txt"], [], [], []⟩

/-- A state whose index has an unsnapshot entry and whose target branch
exists, for the dirty-workspace guard. -/
def guardState : LoomState :=
  ⟨⟨[], []⟩, [("master", "undefined"), ("dev", "undefined")], "master", [], ["u.txt"], [], []⟩

/-- Origin tree sharing the entry `a` with the destination tree. -/
def sharedO : TreeObj := ⟨true, true, [("a", "cid-a")]⟩

/-- Destination tree sharing the entry `a` with the origin tree. -/
def sharedD : TreeObj := ⟨true, true, [("a", "cid-a")]⟩

/-- Store for the updateWorkingDirectory run: the new tree rewrites file x
and drops file z. -/
def storeW : Store :=
  ⟨[("fx", IpldNode.file "x" "bx"), ("fxOld", IpldNode.file "x" "bxo"),
    ("fz", IpldNode.file "z" "bz")],
   [("bx", "X"), ("bxo", "XO"), ("bz", "Z")]⟩

/-- Base tree holding the old x and the to-be-removed z. -/
def bW : TreeObj := ⟨true, true, [("x", "fxOld"), ("z", "fz")]⟩

/-- New tree holding only the rewritten x. -/
def nW : TreeObj := ⟨true, true, [("x", "fx")]⟩

/-- A stored head snapshot for the snapshotParents witness. -/
def wNode : IpldNode := IpldNode.snapshot "a" "m" "t" JsParents.strUndefined

/-- Store holding the witness head snapshot under CID h. -/
def wStore : Store := ⟨[("h", wNode)], []⟩

/-- Whether an embedded computation ended in a thrown exception. -/
def isError {α : Type} : Except JsErr α → Bool
  | Except.error _ => true
  | Except.ok _ => false

/-
  Theorems.
-/

/-- Helper: every call of the embedded `mergeTrees` ends in a thrown
exception: either the loop raises one, or the trailing
`mergeResult[0] = mergeFlag` writes into the undefined `mergeResult`. -/
theorem mergeTrees_always_throws (store : Store) (fuel : Nat) (o d l : TreeObj)
    (log : List String) : isError (mergeTrees store fuel o d l log).1 = true := by
  cases fuel with
  | zero => rfl
  | succ f =>
    unfold mergeTrees
    split <;> rfl

/-- C1: the spec requires origin-only additions (absent in the LCA tree and
in the destination tree, present in the origin tree) to appear in the
merged tree. In the source, the loop of `mergeTrees` iterates only the
destination entries, so the origin-only entry is never visited, and no
merged tree is ever produced because the routine throws a TypeError at the
final write into the undefined `mergeResult`: at a store where the origin
tree holds only.txt and the destination and LCA trees are empty, the merge
raises the TypeError and the origin-only entry went nowhere. -/
theorem mergeTrees_drops_origin_only_addition :
    (mergeTrees storeEmpty 5 treeOnlyO treeEmpty treeEmpty []).1 =
      Except.error (JsErr.typeError "Cannot set properties of undefined (setting 0)") ∧
    (mergeTrees storeEmpty 5 treeOnlyO treeEmpty treeEmpty []).2.origin.entries =
      [("only.txt", "cid-only")] :=
  ⟨by rfl, by rfl⟩

/-- C5: at a cell where the origin holds a file under `p` and the
destination holds a tree under `p` (different CIDs), the claim requires a
TypeConflict report; the source instead takes the destination entry into
the merge tree (line 360), which faults immediately because `mergeTree` is
undefined. No conflict report of any kind is produced. -/
theorem mergeTrees_type_mismatch_no_conflict_report :
    (mergeTrees store5 5 o5 d5 treeEmpty []).1 =
      Except.error (JsErr.typeError "Cannot set properties of undefined (setting p)") :=
  by rfl

/-- C9: on a parent chain ending in an initial snapshot whose parents field
is absent (exactly what `Loom.snapshot` records for the first snapshot of a
branch), the while guard `snapshot.parents !== "undefined"` still passes,
and indexing `snapshot.parents[0]` raises a TypeError instead of
terminating with the finite CID list the claim requires. -/
theorem buildSnapshotCIDS_faults_on_absent_parents :
    buildSnapshotCIDS store9 10 snap9 [] =
      Except.error (JsErr.typeError "Cannot read properties of undefined (reading 0)") :=
  by rfl

/-- C8: in store8 the heads sm and sb have the common ancestor sy (a strict
ancestor of both), yet the merge LCA computation, which follows only the
first parent of each snapshot, returns the root sr, of which sy is a strict
descendant. The returned CID is therefore not a lowest common ancestor. -/
theorem merge_lca_not_lowest :
    mergeLcaCid store8 10 "sm" "sb" = Except.ok (some "sr") ∧
    specStrictAncestor store8 10 "sy" "sm" = true ∧
    specStrictAncestor store8 10 "sy" "sb" = true ∧
    specStrictAncestor store8 10 "sr" "sy" = true ∧
    "sy" ≠ "sr" :=
  ⟨by rfl, by rfl, by rfl, by rfl, by decide⟩

/-- C6: in state6 the LCA of the two heads is the current head s1 (s1 is an
ancestor of the destination head s3), the fast-forward case in which the
claim requires the current head to move to s3 with no new snapshot; the
source has no fast-forward handling at all and instead runs the three-way
merge, which throws a TypeError on the destination-only entry b, leaving
the state untouched. -/
theorem merge_fast_forward_throws :
    specAncestorOrSelf store6 10 "s1" "s3" = true ∧
    loomMerge state6 10 "b" =
      (Except.error (JsErr.typeError "Cannot set properties of undefined (setting b)"), state6) :=
  ⟨by rfl, by rfl⟩

/-- C3: at the clean divergent two-branch state state3 every precondition
of a successful merge holds, yet the operation aborts with a TypeError from
`mergeTrees` (state unchanged, current branch still master). No merge ever
completes, and the success path as written (src line 219) would set the
current branch name to the destination branch, contrary to the claim. -/
theorem merge_aborts_on_clean_divergent_merge :
    loomMerge state3 10 "b" =
      (Except.error (JsErr.typeError "Cannot set properties of undefined (setting o.txt)"), state3) :=
  by rfl

/-- C4: at the text-conflict state state4 (spec scenario S4) the claim
requires merge to return a MergeConflict report and leave everything
unchanged; the source runs the external text merge, logs its conflicting
result (the two console lines below), discards it, and then throws a
TypeError from the uninitialized mergeResult. The conflict branch of merge
(src line 204) never sees a flag, and no conflict report is returned. -/
theorem merge_discards_text_conflict :
    loomMerge state4 10 "b" =
      (Except.error (JsErr.typeError "Cannot set properties of undefined (setting 0)"),
       { state4 with consoleLog :=
          ["true", "<<<<<<<\nline1\nMASTER\n=======\nline1\nBRANCH\n>>>>>>>"] }) :=
  by rfl

/-- C7 counterexample: an invocation of checkout whose index has a modified
entry but whose target branch does not exist fails with the unknown-branch
error, not with a dirty-workspace error listing the offending paths, so the
claim as stated (over every invocation) is false. -/
theorem checkout_dirty_unknown_branch :
    dirtyState.indexModified ≠ [] ∧
    loomCheckout dirtyState 5 "nope" =
      (Except.error (JsErr.error "Branch nope does not exist"), dirtyState) :=
  ⟨by decide, by rfl⟩

/-- C10 counterexample: after `mergeTrees` runs on an origin tree and a
destination tree that share the identical entry `a`, the origin tree still
contains that shared entry: the only `delete _originTree[entry]` of the
source sits in the branch taken when the entry is absent from the origin
tree (and even there it is unreachable, following a throw), so shared
entries are never removed. -/
theorem mergeTrees_keeps_shared_entries :
    TreeObj.lookup sharedD "a" = some "cid-a" ∧
    TreeObj.lookup (mergeTrees storeEmpty 5 sharedO sharedD treeEmpty []).2.origin "a" =
      some "cid-a" :=
  ⟨by rfl, by rfl⟩

/-- Helper: one `mergeTrees` loop step only appends to the console log; the
three tree dictionaries carried in the state come back unchanged, so in
particular no entry is ever removed from any of them. -/
theorem mergeTreesStep_log (store : Store)
    (rec : TreeObj → TreeObj → TreeObj → List String → Except JsErr MergeTuple × MTState)
    (acc : Option JsErr × MTState) (e : String × String) :
    ∃ lg, (mergeTreesStep store rec acc e).2 = { acc.2 with log := lg } := by
  obtain ⟨oe, st⟩ := acc
  cases oe with
  | some er => exact ⟨st.log, rfl⟩
  | none =>
    simp only [mergeTreesStep]
    repeat' split
    all_goals exact ⟨_, rfl⟩

/-- Helper: the `mergeTrees` loop as a whole only appends to the console
log, leaving the three tree dictionaries unchanged. -/
theorem foldl_mergeTreesStep_log (store : Store)
    (rec : TreeObj → TreeObj → TreeObj → List String → Except JsErr MergeTuple × MTState)
    (entries : List (String × String)) :
    ∀ acc : Option JsErr × MTState,
      ∃ lg, (entries.foldl (mergeTreesStep store rec) acc).2 = { acc.2 with log := lg } := by
  induction entries with
  | nil => intro acc; exact ⟨acc.2.log, by simp⟩
  | cons e rest ih =>
    intro acc
    obtain ⟨lg1, h1⟩ := mergeTreesStep_log store rec acc e
    obtain ⟨lg2, h2⟩ := ih (mergeTreesStep store rec acc e)
    exact ⟨lg2, by rw [List.foldl_cons, h2, h1]⟩

/-- Helper: a `mergeTrees` call returns its three tree arguments with
exactly the meta keys removed and every child entry intact; only the
console log may have grown. -/
theorem mergeTrees_state (store : Store) (fuel : Nat) (o d l : TreeObj) (log : List String) :
    ∃ lg, (mergeTrees store (fuel+1) o d l log).2 =
      ⟨o.stripMeta, d.stripMeta, l.stripMeta, lg⟩ := by
  obtain ⟨lg, hfold⟩ := foldl_mergeTreesStep_log store
    (fun o2 d2 l2 log2 => mergeTrees store fuel o2 d2 l2 log2)
    d.stripMeta.entries (none, ⟨o.stripMeta, d.stripMeta, l.stripMeta, log⟩)
  refine ⟨lg, ?_⟩
  simp only [mergeTrees]
  split
  next er st heq =>
    rw [heq] at hfold
    simpa using hfold
  next st heq =>
    rw [heq] at hfold
    simpa using hfold

/-- Helper: a loop step of `updateWorkingDirectory` with a pending
exception does nothing. -/
theorem updateWDStep_frozen (store : Store)
    (rec : TreeObj → TreeObj → List WdAction → Except JsErr Unit × TreeObj × TreeObj × List WdAction)
    (er : JsErr) (b : TreeObj) (tr : List WdAction) (e : String × String) :
    updateWDStep store rec (some er, b, tr) e = (some er, b, tr) := rfl

/-- Helper: once a loop step of `updateWorkingDirectory` has raised an
exception, the rest of the fold is inert. -/
theorem foldl_updateWDStep_frozen (store : Store)
    (rec : TreeObj → TreeObj → List WdAction → Except JsErr Unit × TreeObj × TreeObj × List WdAction)
    (entries : List (String × String)) :
    ∀ (er : JsErr) (b : TreeObj) (tr : List WdAction),
      entries.foldl (updateWDStep store rec) (some er, b, tr) = (some er, b, tr) := by
  induction entries with
  | nil => intros; rfl
  | cons e rest ih =>
    intro er b tr
    rw [List.foldl_cons, updateWDStep_frozen]
    exact ih er b tr

/-- Helper: a non-raising loop step of `updateWorkingDirectory` deletes
exactly the processed entry from the base tree; a raising step leaves the
base tree as it was. -/
theorem updateWDStep_base (store : Store)
    (rec : TreeObj → TreeObj → List WdAction → Except JsErr Unit × TreeObj × TreeObj × List WdAction)
    (b : TreeObj) (tr : List WdAction) (e : String × String) :
    (∃ tr2, updateWDStep store rec (none, b, tr) e = (none, b.erase e.1, tr2)) ∨
    (∃ er tr2, updateWDStep store rec (none, b, tr) e = (some er, b, tr2)) := by
  simp only [updateWDStep]
  repeat' split
  all_goals first
    | exact Or.inl ⟨_, rfl⟩
    | exact Or.inr ⟨_, _, rfl⟩

/-- Helper: when the first loop of `updateWorkingDirectory` completes
without raising, the base tree has lost exactly the entries whose names
occur in the iterated destination entries. -/
theorem foldl_updateWDStep_base (store : Store)
    (rec : TreeObj → TreeObj → List WdAction → Except JsErr Unit × TreeObj × TreeObj × List WdAction)
    (entries : List (String × String)) :
    ∀ (b : TreeObj) (tr : List WdAction),
      (entries.foldl (updateWDStep store rec) (none, b, tr)).1 = none →
      (entries.foldl (updateWDStep store rec) (none, b, tr)).2.1 =
        { b with entries := b.entries.filter (fun p => !((entries.map Prod.fst).contains p.1)) } := by
  induction entries with
  | nil =>
    intro b tr _
    simp
  | cons e rest ih =>
    intro b tr hnone
    rw [List.foldl_cons] at hnone ⊢
    rcases updateWDStep_base store rec b tr e with ⟨tr2, hstep⟩ | ⟨er, tr2, hstep⟩
    · rw [hstep] at hnone ⊢
      rw [ih (b.erase e.1) tr2 hnone]
      simp only [TreeObj.erase, List.filter_filter, List.map_cons, List.contains_cons,
        Bool.not_or]
      congr 1
      exact List.filter_congr (fun a _ => Bool.and_comm _ _)
    · rw [hstep, foldl_updateWDStep_frozen] at hnone
      cases hnone

/-- Helper: when `updateWorkingDirectory` completes without raising, the
base tree object it was handed ends up with the meta keys removed and
exactly the entries whose names do not occur in the new tree; the second
loop (file removals) does not touch the base object. -/
theorem updateWD_ok_base (store : Store) (fuel : Nat) (b n : TreeObj) (tr : List WdAction)
    (h : (updateWorkingDirectory store (fuel+1) b n tr).1 = Except.ok ()) :
    (updateWorkingDirectory store (fuel+1) b n tr).2.1 =
      { hasType := false, hasPath := false,
        entries := b.entries.filter (fun p => !((n.entries.map Prod.fst).contains p.1)) } := by
  have hbase := foldl_updateWDStep_base store
    (fun b2 n2 t2 => updateWorkingDirectory store fuel b2 n2 t2)
    n.stripMeta.entries b.stripMeta tr
  simp only [updateWorkingDirectory] at h ⊢
  split at h
  next er b1 tr1 heq => cases h
  next b1 tr1 heq =>
    have h1 : (n.stripMeta.entries.foldl
        (updateWDStep store (fun b2 n2 t2 => updateWorkingDirectory store fuel b2 n2 t2))
        (none, b.stripMeta, tr)).1 = none := by rw [heq]
    have h2 := hbase h1
    rw [heq] at h2
    simp only at h2
    split at h
    next er tr2 heq2 => cases h
    next tr2 heq2 =>
      simpa [TreeObj.stripMeta] using h2

/-- C10 (amended): `mergeTrees` and `updateWorkingDirectory` do mutate
their tree arguments in place by deleting the `@type` and `path` keys, and
`updateWorkingDirectory` removes every processed entry from its base tree;
but `mergeTrees` removes no child entry from any of its three arguments
(its only entry delete sits in the branch taken when the entry is already
absent from the origin tree, after a statement that throws), so after
`mergeTrees(originTree, destinationTree, lcaTree)` the originTree still
contains all the entries it shared with the destination tree; and merge
never passes it on to `updateWorkingDirectory`, because `mergeTrees` always
throws first. -/
theorem mergeTrees_updateWD_inplace (store : Store) (fuel : Nat) (o d l : TreeObj)
    (log : List String) (b n : TreeObj) (tr : List WdAction) :
    (∃ lg, (mergeTrees store (fuel+1) o d l log).2 =
      ⟨o.stripMeta, d.stripMeta, l.stripMeta, lg⟩) ∧
    ((updateWorkingDirectory store (fuel+1) b n tr).1 = Except.ok () →
      (updateWorkingDirectory store (fuel+1) b n tr).2.1 =
        { hasType := false, hasPath := false,
          entries := b.entries.filter (fun p => !((n.entries.map Prod.fst).contains p.1)) }) :=
  ⟨mergeTrees_state store fuel o d l log,
   fun h => updateWD_ok_base store fuel b n tr h⟩

/-- C10 witness: the amended theorem applied at a concrete run in which the
new tree rewrites x and drops z. -/
theorem mergeTrees_updateWD_inplace_witness :
    (updateWorkingDirectory storeW 5 bW nW []).1 = Except.ok () ∧
    (updateWorkingDirectory storeW 5 bW nW []).2.1 =
      { hasType := false, hasPath := false,
        entries := bW.entries.filter (fun p => !((nW.entries.map Prod.fst).contains p.1)) } :=
  ⟨by rfl, (mergeTrees_updateWD_inplace storeW 4 bW nW bW [] bW nW []).2 (by rfl)⟩

/-- C2: the spec requires a merge snapshot with exactly two parents, the
pre-merge current head first and the other head second. The parents array
built by `Loom.snapshot` (src line 103) holds at most one element: the
current head when it is defined, and nothing otherwise; the other head is
never attached. (Moreover no merge ever completes: `mergeTrees` always
throws, see mergeTrees_always_throws.) -/
theorem snapshotParents_singleton (store : Store) (head : String) (ps : List IpldNode)
    (h : snapshotParents store head = Except.ok (some ps)) : ps.length = 1 := by
  unfold snapshotParents at h
  by_cases hh : head ≠ "undefined"
  · rw [if_pos hh] at h
    cases hg : nodeGet store head with
    | error e => rw [hg] at h; cases h
    | ok n =>
      rw [hg] at h
      obtain rfl : [n] = ps := by simpa using h
      rfl
  · rw [if_neg hh] at h
    cases h

/-- C2 witness: the parents array built for a defined head holds exactly
one element. -/
theorem snapshotParents_singleton_witness :
    snapshotParents wStore "h" = Except.ok (some [wNode]) ∧ [wNode].length = 1 :=
  ⟨by rfl, snapshotParents_singleton wStore "h" [wNode] (by rfl)⟩

/-- C7 (amended): provided the named branch exists, whenever the index
update leaves a non-empty modified or unsnapshot set, both checkout and
merge fail with the dirty-workspace error listing the offending paths
(the unsnapshot set takes precedence, as in the source) and return the
state entirely unchanged: no working-directory action, no branch update,
no index change. -/
theorem checkout_merge_dirty_guard (s : LoomState) (fuel : Nat) (name : String)
    (hb : branchExists s.branches name = true)
    (hd : s.indexUnsnapshot ≠ [] ∨ s.indexModified ≠ []) :
    loomCheckout s fuel name =
      (Except.error (if s.indexUnsnapshot ≠ [] then
          JsErr.error ("You have unsnapshot modifications: " ++ jsJoin s.indexUnsnapshot)
        else
          JsErr.error ("You have unstaged and unsnaphot modifications: " ++ jsJoin s.indexModified)),
       s) ∧
    loomMerge s fuel name =
      (Except.error (if s.indexUnsnapshot ≠ [] then
          JsErr.error ("You have unsnapshot modifications: " ++ jsJoin s.indexUnsnapshot)
        else
          JsErr.error ("You have unstaged and unsnaphot modifications: " ++ jsJoin s.indexModified)),
       s) := by
  have hb2 : ¬ (branchExists s.branches name = false) := by simp [hb]
  constructor
  · unfold loomCheckout
    rw [if_neg hb2]
    by_cases hu : s.indexUnsnapshot ≠ []
    · rw [if_pos hu, if_pos hu]
    · rw [if_neg hu, if_pos (hd.resolve_left hu), if_neg hu]
  · unfold loomMerge
    rw [if_neg hb2]
    by_cases hu : s.indexUnsnapshot ≠ []
    · rw [if_pos hu, if_pos hu]
    · rw [if_neg hu, if_pos (hd.resolve_left hu), if_neg hu]

/-- C7 witness: the dirty guard applied at a concrete state with an
unsnapshot entry and an existing target branch. -/
theorem checkout_merge_dirty_guard_witness :
    branchExists guardState.branches "dev" = true ∧
    (guardState.indexUnsnapshot ≠ [] ∨ guardState.indexModified ≠ []) ∧
    (loomCheckout guardState 5 "dev" =
      (Except.error (if guardState.indexUnsnapshot ≠ [] then
          JsErr.error ("You have unsnapshot modifications: " ++ jsJoin guardState.indexUnsnapshot)
        else
          JsErr.error ("You have unstaged and unsnaphot modifications: " ++ jsJoin guardState.indexModified)),
       guardState) ∧
     loomMerge guardState 5 "dev" =
      (Except.error (if guardState.indexUnsnapshot ≠ [] then
          JsErr.error ("You have unsnapshot modifications: " ++ jsJoin guardState.indexUnsnapshot)
        else
          JsErr.error ("You have unstaged and unsnaphot modifications: " ++ jsJoin guardState.indexModified)),
       guardState)) :=
  ⟨by rfl, Or.inl (by decide),
   checkout_merge_dirty_guard guardState 5 "dev" (by rfl) (Or.inl (by decide))⟩
